import Mathlib

/-
Verification of the database schema-management core of BeurerScaleManager
(`utils.cpp`, namespace BSM::Utils).

The C++ code drives a single SQLite connection.  The embedding models the
visible state of that connection as a `DB` record: the catalog of existing
tables, the rows of the version-registry table `TablesVersions`, and three
observation traces (statements handed to the query executor, statements that
reached the execution step, and diagnostic log lines emitted with
qDebug/qWarning).  `ever` is a history ghost field recording every table name
that was ever created; no operation reads it, it only serves to state the
registry invariant of the specification.

The SQL engine (SQLite, reached through QSqlQuery) is external to the
repository.  It is modelled at the level of the statements this module
actually issues: `prepareSql` parses the statement text and performs the
schema checks SQLite makes at statement-compilation time ("table ... already
exists", "no such table", "PRIMARY KEY missing on table" for WITHOUT ROWID
tables, and the syntax error for an empty column list); `execStmt` applies a
successfully prepared statement to the state.  The two bound-parameter
statements of getTableVersion/setTableVersion never fail once the tables they
touch exist, so they are modelled directly as state functions, recording the
statement text in the execution trace.

QVariant::toUInt on the value read back from the `version` column is modelled
as succeeding exactly on non-negative stored values (every value this module
itself stores comes from a C++ `int`, so machine-width truncation never
occurs on the values reachable through this interface).
-/

namespace BSM

/-- The backquote character used by createTable to quote the table name. -/
def backquote : Char := Char.ofNat 96

/-- Removes the list p from the front of s when p is literally the front
of s; otherwise fails. -/
def dropPre : List Char → List Char → Option (List Char)
  | [], s => some s
  | _ :: _, [] => none
  | p :: ps, c :: cs => if c = p then dropPre ps cs else none

/-- Splits a list at the first occurrence of the character ch. -/
def splitAtChar (ch : Char) : List Char → Option (List Char × List Char)
  | [] => none
  | c :: cs =>
    if c = ch then some ([], cs)
    else (splitAtChar ch cs).map (fun p => (c :: p.1, p.2))

/-- Removes the list suf from the back of s when suf is literally the back
of s; otherwise fails. -/
def dropSuf (suf s : List Char) : Option (List Char) :=
  (dropPre suf.reverse s.reverse).map List.reverse

/-- Boolean test: pat is literally the front of s. -/
def isPre (pat s : List Char) : Bool := (dropPre pat s).isSome

/-- Boolean test: pat occurs contiguously inside s. -/
def containsSub : List Char → List Char → Bool
  | pat, [] => isPre pat []
  | pat, c :: cs => isPre pat (c :: cs) || containsSub pat cs

/-- Boolean test: the string s ends with the text suf. -/
def endsWithStr (suf s : String) : Bool := (dropSuf suf.data s.data).isSome

/-- QStringList::join with the given separator, as used by createTable. -/
def joinWith (sep : String) : List String → String
  | [] => ""
  | [x] => x
  | x :: y :: xs => x ++ sep ++ joinWith sep (y :: xs)

/-- Membership of a string in a list; QStringList::indexOf(x) >= 0. -/
def strMem (x : String) : List String → Bool
  | [] => false
  | y :: ys => if y = x then true else strMem x ys

/-- Every element of the first list occurs in the second list. -/
def allIn : List String → List String → Bool
  | [], _ => true
  | x :: xs, e => strMem x e && allIn xs e

/-- Removes every occurrence of x from a list of strings. -/
def removeAll (x : String) : List String → List String
  | [] => []
  | y :: ys => if y = x then removeAll x ys else y :: removeAll x ys

/-- Value stored under primary key k in the registry rows, if any. -/
def lookupVersion (k : String) : List (String × Int) → Option Int
  | [] => none
  | r :: rs => if r.1 = k then some r.2 else lookupVersion k rs

/-- Removes the row stored under primary key k from the registry rows. -/
def eraseRow (k : String) : List (String × Int) → List (String × Int)
  | [] => []
  | r :: rs => if r.1 = k then eraseRow k rs else r :: eraseRow k rs

/-- Visible state of the database connection, plus observation traces.
`tables` is the catalog (QSqlDatabase::tables), `versions` the rows of the
TablesVersions registry, `submitted` the statements handed to executeQuery,
`executed` the statements that reached the execution step, `log` the
diagnostic lines emitted with qDebug/qWarning, and `ever` a history ghost
recording every table name ever created (never read by any operation). -/
structure DB where
  tables : List String
  versions : List (String × Int)
  submitted : List String
  executed : List String
  log : List String
  ever : List String
deriving DecidableEq

/-- A freshly opened database file: no tables, no registry rows. -/
def emptyDB : DB := ⟨[], [], [], [], [], []⟩

/-- Emission of one diagnostic line (qDebug/qWarning). -/
def addLog (msg : String) (db : DB) : DB := { db with log := msg :: db.log }

/-- VERSION_TABLE_NAME, the name of the version registry table. -/
def VERSION_TABLE_NAME : String := "TablesVersions"

/-- BSM::Utils::isTablePresent: the table name occurs in the catalog. -/
def isTablePresent (tableName : String) (db : DB) : Bool :=
  strMem tableName db.tables

/-- Statement forms issued by this module: CREATE TABLE (optionally
IF NOT EXISTS, name possibly backquoted, raw column-definition body,
always WITHOUT ROWID) and DROP TABLE. -/
inductive Stmt where
  | createTbl (ifNotExists : Bool) (name : String) (body : String)
  | dropTbl (name : String)
deriving DecidableEq

/-- Characters accepted in a bare (unquoted) identifier position. -/
def identChar (c : Char) : Bool := c.isAlphanum || c == '_'

/-- Parses the tail of a CREATE TABLE statement after the column body: the
") WITHOUT ROWID;" ending this module always emits. -/
def parseCreateTail (ifne : Bool) (nm r4 : List Char) : Option Stmt :=
  match dropSuf (") WITHOUT ROWID;").data r4 with
  | some body => some (Stmt.createTbl ifne (String.mk nm) (String.mk body))
  | none => none

/-- Parses the part of a CREATE TABLE statement after the table name:
a space and the parenthesised column-definition body. -/
def parseCreateBody (ifne : Bool) (nm r3 : List Char) : Option Stmt :=
  match dropPre (" (").data r3 with
  | some r4 => parseCreateTail ifne nm r4
  | none => none

/-- Parses a backquote-quoted table name: everything up to the closing
backquote. -/
def parseCreateQuoted (ifne : Bool) (r2 : List Char) : Option Stmt :=
  match splitAtChar backquote r2 with
  | some p => parseCreateBody ifne p.1 p.2
  | none => none

/-- Parses a bare (unquoted) table name: the longest identifier run. -/
def parseCreateBare (ifne : Bool) (r : List Char) : Option Stmt :=
  let nm := r.takeWhile identChar
  if nm.isEmpty then none
  else parseCreateBody ifne nm (r.dropWhile identChar)

/-- Parses the table name of a CREATE TABLE statement, either backquoted
or as a bare identifier. -/
def parseCreateName (ifne : Bool) (r : List Char) : Option Stmt :=
  match dropPre [backquote] r with
  | some r2 => parseCreateQuoted ifne r2
  | none => parseCreateBare ifne r

/-- Parses the rest of a CREATE TABLE statement, with an optional
IF NOT EXISTS clause. -/
def parseCreate (rest : List Char) : Option Stmt :=
  match dropPre ("IF NOT EXISTS ").data rest with
  | some r => parseCreateName true r
  | none => parseCreateName false rest

/-- Longest identifier-character run at the front of a list, with the rest. -/
def identRun : List Char → List Char × List Char
  | [] => ([], [])
  | c :: cs =>
    if identChar c then
      let p := identRun cs
      (c :: p.1, p.2)
    else ([], c :: cs)

/-- Parses the rest of a DROP TABLE statement.  dropTable emits the table
name unquoted, so the engine's grammar requires a bare nonempty identifier
followed by the closing semicolon; any other text (a name with a space, a
quote, a semicolon, ...) is a syntax error at preparation time. -/
def parseDrop (rest : List Char) : Option Stmt :=
  let p := identRun rest
  if p.1.isEmpty then none
  else if p.2 = (";").data then some (Stmt.dropTbl (String.mk p.1)) else none

/-- Front end of the external SQL engine, restricted to the statement forms
this module issues; any other text fails to parse. -/
def parseSql (sql : String) : Option Stmt :=
  match dropPre ("CREATE TABLE ").data sql.data with
  | some rest => parseCreate rest
  | none =>
    match dropPre ("DROP TABLE ").data sql.data with
    | some rest => parseDrop rest
    | none => none

/-- sqlite3_prepare as reached through QSqlQuery::prepare: parsing plus the
schema checks SQLite performs at statement-compilation time ("table already
exists" for plain CREATE TABLE, "no such table" for DROP TABLE, "PRIMARY KEY
missing on table" for a WITHOUT ROWID table, empty column list). -/
def prepareSql (tables : List String) (sql : String) : Option Stmt :=
  match parseSql sql with
  | some (Stmt.createTbl ifne name body) =>
    if body.data.isEmpty then none
    else if !(containsSub ("PRIMARY KEY").data body.data) then none
    else if !ifne && strMem name tables then none
    else some (Stmt.createTbl ifne name body)
  | some (Stmt.dropTbl name) =>
    if strMem name tables then some (Stmt.dropTbl name) else none
  | none => none

/-- Execution of a successfully prepared statement.  Dropping the registry
table destroys its rows; creating a table records its name in the history
ghost `ever`. -/
def execStmt (sql : String) (st : Stmt) (db : DB) : DB :=
  let db1 : DB := { db with executed := sql :: db.executed }
  match st with
  | Stmt.createTbl ifne name _ =>
    if ifne && strMem name db1.tables then db1
    else { db1 with tables := name :: db1.tables, ever := name :: db1.ever }
  | Stmt.dropTbl name =>
    { db1 with tables := removeAll name db1.tables,
               versions := if name = VERSION_TABLE_NAME then [] else db1.versions }

/-- BSM::Utils::executeQuery: prepare the statement, returning false without
executing on preparation failure; execute it otherwise.  No diagnostic line
is emitted by this function itself. -/
def executeQuery (sql : String) (db : DB) : Bool × DB :=
  let db1 : DB := { db with submitted := sql :: db.submitted }
  match prepareSql db.tables sql with
  | none => (false, db1)
  | some st => (true, execStmt sql st db1)

/-- Clause list built by createTable: one "name type" string per column,
in the order of the definition. -/
def columnClauses (tableDefinition : List (String × String)) : List String :=
  tableDefinition.map (fun c => c.1 ++ " " ++ c.2)

/-- The CREATE TABLE statement text built by BSM::Utils::createTable via
QString("CREATE TABLE `%1` (%2) WITHOUT ROWID;").arg(name).arg(clauses). -/
def createTableSql (tableName : String) (tableDefinition : List (String × String)) : String :=
  "CREATE TABLE `" ++ tableName ++ "` (" ++
    joinWith ", " (columnClauses tableDefinition) ++ ") WITHOUT ROWID;"

/-- BSM::Utils::createTable: builds the statement text, emits the qDebug
line, and hands the statement to executeQuery. -/
def createTable (tableName : String) (tableDefinition : List (String × String))
    (db : DB) : Bool × DB :=
  let sql := createTableSql tableName tableDefinition
  executeQuery sql (addLog ("Creating table " ++ tableName ++ " : " ++ sql) db)

/-- The DROP TABLE statement text built by BSM::Utils::dropTable. -/
def dropTableSql (tableName : String) : String :=
  "DROP TABLE " ++ tableName ++ ";"

/-- BSM::Utils::dropTable: no-op returning true when the table is absent;
otherwise executes DROP TABLE, warning on failure. -/
def dropTable (tableName : String) (db : DB) : Bool × DB :=
  if !(isTablePresent tableName db) then (true, db)
  else
    let r := executeQuery (dropTableSql tableName) db
    if r.1 then (true, r.2)
    else (false, addLog ("Cannot drop table " ++ tableName) r.2)

/-- Text of the bound SELECT statement used by getTableVersion. -/
def getVersionSql : String :=
  "SELECT version FROM TablesVersions WHERE tableName = :tableName;"

/-- BSM::Utils::getTableVersion: -1 when the registry table is absent, 0 when
the queried table is absent, the stored integer verbatim when a row exists,
and -1 (with a warning) when the row is missing.  QVariant::toUInt succeeds
(wrapping) on every integer value the driver returns, and the subsequent
uint-to-int assignment wraps back, so the value stored by setTableVersion —
negative values included — is returned unchanged; the conversion-failure
path of the source is reachable only for non-integer column values, which
cannot arise through this module and are not representable in the model. -/
def getTableVersion (tableName : String) (db : DB) : Int × DB :=
  if !(isTablePresent VERSION_TABLE_NAME db) then (-1, db)
  else if !(isTablePresent tableName db) then (0, db)
  else
    let db1 : DB := { db with executed := getVersionSql :: db.executed }
    match lookupVersion tableName db1.versions with
    | some v => (v, db1)
    | none => (-1, addLog ("Cannot find version for table " ++ tableName) db1)

/-- Text of the bound INSERT OR REPLACE statement used by setTableVersion. -/
def setVersionSql : String :=
  "INSERT OR REPLACE INTO TablesVersions (tableName, version) VALUES (:tableName, :version);"

/-- BSM::Utils::setTableVersion: false without mutation when the registry
table or the target table is absent; otherwise inserts-or-replaces the row
under the tableName primary key and returns true. -/
def setTableVersion (tableName : String) (tableVersion : Int) (db : DB) : Bool × DB :=
  if !(isTablePresent VERSION_TABLE_NAME db) then (false, db)
  else if !(isTablePresent tableName db) then (false, db)
  else
    (true, { db with
               versions := (tableName, tableVersion) :: eraseRow tableName db.versions,
               executed := setVersionSql :: db.executed })

/-- The registry-creation statement issued once at startup by
openDdAndCheckTables (the spec's ensureVersionTable). -/
def ensureVersionTableSql : String :=
  "CREATE TABLE IF NOT EXISTS TablesVersions (tableName TEXT PRIMARY KEY, version INTEGER) WITHOUT ROWID;"

/-- The spec's ensureVersionTable operation: executes the registry-creation
statement through executeQuery. -/
def ensureVersionTable (db : DB) : Bool × DB :=
  executeQuery ensureVersionTableSql db

/-- Modelled from the spec: the identifier allow-list of §3 / §9 against
which table and column names would have to be validated before interpolation
into SQL text (no such validation exists in the source).  A valid identifier
is nonempty and consists of alphanumeric characters and underscores. -/
def isValidIdentifier (s : String) : Bool :=
  !s.data.isEmpty && s.data.all (fun c => c.isAlphanum || c == '_')

/-- One call to any operation of this core, for stating state invariants. -/
inductive Op where
  | createT (n : String) (d : List (String × String))
  | dropT (n : String)
  | setV (n : String) (v : Int)
  | getV (n : String)
  | runSql (sql : String)
  | ensureV

/-- The state reached after one operation. -/
def applyOp : Op → DB → DB
  | Op.createT n d, db => (createTable n d db).2
  | Op.dropT n, db => (dropTable n db).2
  | Op.setV n v, db => (setTableVersion n v db).2
  | Op.getV n, db => (getTableVersion n db).2
  | Op.runSql s, db => (executeQuery s db).2
  | Op.ensureV, db => (ensureVersionTable db).2

/-- Registry invariant of spec §3: every table name stored as a registry row
names a table that exists or once existed (its name occurs in the history
ghost `ever`), and every existing table is recorded in `ever`. -/
def RegistryInv (db : DB) : Bool :=
  allIn (db.versions.map Prod.fst) db.ever && allIn db.tables db.ever

/-! Helper lemmas about the list and string scaffolding. -/

theorem strData_append (s t : String) : (s ++ t).data = s.data ++ t.data := rfl

theorem strMk_data (s : String) : String.mk s.data = s := rfl

theorem dropPre_append (p r : List Char) : dropPre p (p ++ r) = some r := by
  induction p with
  | nil => rfl
  | cons c cs ih => simp [dropPre, ih]

theorem splitAtChar_append (ch : Char) (xs ys : List Char) (h : ch ∉ xs) :
    splitAtChar ch (xs ++ ch :: ys) = some (xs, ys) := by
  induction xs with
  | nil => simp [splitAtChar]
  | cons c cs ih =>
    have hc : ¬(c = ch) := fun he => h (he ▸ List.mem_cons_self c cs)
    have hcs : ch ∉ cs := fun hm => h (List.mem_cons_of_mem c hm)
    simp [splitAtChar, hc, ih hcs]

theorem dropSuf_append (suf b : List Char) : dropSuf suf (b ++ suf) = some b := by
  simp [dropSuf, List.reverse_append, dropPre_append]

theorem isPre_append_self (p r : List Char) : isPre p (p ++ r) = true := by
  simp [isPre, dropPre_append]

theorem containsSub_of_isPre (p s : List Char) (h : isPre p s = true) :
    containsSub p s = true := by
  cases s with
  | nil => simpa [containsSub] using h
  | cons c cs => simp [containsSub, h]

theorem containsSub_middle (a p b : List Char) : containsSub p (a ++ (p ++ b)) = true := by
  induction a with
  | nil => exact containsSub_of_isPre p (p ++ b) (isPre_append_self p b)
  | cons c cs ih => simp [containsSub, ih]

theorem strMem_cons_of (x n : String) (e : List String) (h : strMem x e = true) :
    strMem x (n :: e) = true := by
  by_cases hn : n = x <;> simp [strMem, hn, h]

theorem strMem_head (x : String) (e : List String) : strMem x (x :: e) = true := by
  simp [strMem]

theorem strMem_removeAll_self (x : String) (l : List String) :
    strMem x (removeAll x l) = false := by
  induction l with
  | nil => rfl
  | cons y ys ih => by_cases h : y = x <;> simp [removeAll, h, strMem, ih]

theorem allIn_cons_right (l : List String) (n : String) (e : List String)
    (h : allIn l e = true) : allIn l (n :: e) = true := by
  induction l with
  | nil => rfl
  | cons x xs ih =>
    simp [allIn] at h ⊢
    exact ⟨strMem_cons_of x n e h.1, ih h.2⟩

theorem strMem_of_allIn (l e : List String) (x : String)
    (hall : allIn l e = true) (hx : strMem x l = true) : strMem x e = true := by
  induction l with
  | nil => simp [strMem] at hx
  | cons y ys ih =>
    simp [allIn] at hall
    by_cases hy : y = x
    · exact hy ▸ hall.1
    · simp [strMem, hy] at hx
      exact ih hall.2 hx

theorem allIn_removeAll (x : String) (l e : List String) (h : allIn l e = true) :
    allIn (removeAll x l) e = true := by
  induction l with
  | nil => rfl
  | cons y ys ih =>
    simp [allIn] at h
    by_cases hy : y = x
    · simpa [removeAll, hy] using ih h.2
    · simp [removeAll, hy, allIn, h.1, ih h.2]

theorem allIn_eraseRow_keys (k : String) (rows : List (String × Int)) (e : List String)
    (h : allIn (rows.map Prod.fst) e = true) :
    allIn ((eraseRow k rows).map Prod.fst) e = true := by
  induction rows with
  | nil => rfl
  | cons r rs ih =>
    simp [allIn] at h
    by_cases hk : r.1 = k
    · simpa [eraseRow, hk] using ih h.2
    · simp [eraseRow, hk, allIn, h.1, ih h.2]

theorem lookupVersion_cons_self (k : String) (v : Int) (rows : List (String × Int)) :
    lookupVersion k ((k, v) :: rows) = some v := by
  simp [lookupVersion]

theorem lookupVersion_eraseRow_ne (m k : String) (rows : List (String × Int))
    (h : m ≠ k) : lookupVersion m (eraseRow k rows) = lookupVersion m rows := by
  have hk : ¬(k = m) := fun he => h he.symm
  induction rows with
  | nil => rfl
  | cons r rs ih =>
    by_cases h1 : r.1 = k
    · have h2 : ¬(r.1 = m) := fun he => hk (h1 ▸ he)
      simp [eraseRow, h1, lookupVersion, h2, ih, hk]
    · by_cases h2 : r.1 = m <;> simp [eraseRow, h1, h2, lookupVersion, ih, hk, h]

theorem dropPre_ifne_backquote (cs : List Char) :
    dropPre ("IF NOT EXISTS ").data (backquote :: cs) = none := rfl

theorem dropPre_createPat_d (cs : List Char) :
    dropPre ("CREATE TABLE ").data ('D' :: cs) = none := rfl

theorem dropPre_bq_cons (r : List Char) :
    dropPre [backquote] (backquote :: r) = some r := by
  simp [dropPre]

theorem createTableSql_data (name : String) (d : List (String × String)) :
    (createTableSql name d).data =
      ("CREATE TABLE ").data ++ (backquote :: (name.data ++ (backquote ::
        ((" (").data ++ ((joinWith ", " (columnClauses d)).data ++
          (") WITHOUT ROWID;").data))))) := by
  have e0 : ("CREATE TABLE `" : String).data = ("CREATE TABLE ").data ++ [backquote] := by
    decide
  have eB : ("` (" : String).data = backquote :: (" (").data := by decide
  show ("CREATE TABLE `" ++ name ++ "` (" ++
    joinWith ", " (columnClauses d) ++ ") WITHOUT ROWID;").data = _
  rw [strData_append, strData_append, strData_append, strData_append, e0, eB]
  simp only [List.append_assoc, List.cons_append, List.singleton_append, List.nil_append]

theorem parseSql_eq_parseCreate (sql : String) (rest : List Char)
    (h : dropPre ("CREATE TABLE ").data sql.data = some rest) :
    parseSql sql = parseCreate rest := by
  unfold parseSql; rw [h]

theorem parseSql_eq_parseDrop (sql : String) (rest : List Char)
    (hc : dropPre ("CREATE TABLE ").data sql.data = none)
    (hd : dropPre ("DROP TABLE ").data sql.data = some rest) :
    parseSql sql = parseDrop rest := by
  unfold parseSql; rw [hc, hd]

theorem parseCreate_bq (rest : List Char) :
    parseCreate (backquote :: rest) = parseCreateName false (backquote :: rest) := by
  unfold parseCreate; rw [dropPre_ifne_backquote]

theorem parseCreateName_bq (ifne : Bool) (r2 : List Char) :
    parseCreateName ifne (backquote :: r2) = parseCreateQuoted ifne r2 := by
  unfold parseCreateName; rw [dropPre_bq_cons]

theorem parseCreateQuoted_split (ifne : Bool) (nm r3 : List Char) (h : backquote ∉ nm) :
    parseCreateQuoted ifne (nm ++ backquote :: r3) = parseCreateBody ifne nm r3 := by
  unfold parseCreateQuoted; rw [splitAtChar_append backquote nm r3 h]

theorem parseCreateBody_eq (ifne : Bool) (nm r : List Char) :
    parseCreateBody ifne nm ((" (").data ++ r) = parseCreateTail ifne nm r := by
  unfold parseCreateBody; rw [dropPre_append]

theorem parseCreateTail_eq (ifne : Bool) (nm body : List Char) :
    parseCreateTail ifne nm (body ++ (") WITHOUT ROWID;").data) =
      some (Stmt.createTbl ifne (String.mk nm) (String.mk body)) := by
  unfold parseCreateTail; rw [dropSuf_append]

theorem identRun_append_semi (l : List Char) (hall : l.all identChar = true) :
    identRun (l ++ (";").data) = (l, (";").data) := by
  induction l with
  | nil => decide
  | cons c cs ih =>
    simp only [List.all_cons, Bool.and_eq_true] at hall
    simp [identRun, hall.1, ih hall.2]

theorem identRun_semi_snd_ne (l : List Char) (h : l.all identChar = false) :
    (identRun (l ++ (";").data)).2 ≠ (";").data := by
  induction l with
  | nil => simp at h
  | cons c cs ih =>
    by_cases hc : identChar c = true
    · simp only [List.all_cons, hc, Bool.true_and] at h
      simp [identRun, hc]
      exact ih h
    · simp [identRun, hc]

theorem parseDrop_cases (l : List Char) :
    parseDrop (l ++ (";").data) = none ∨
    (l.isEmpty = false ∧ l.all identChar = true ∧
      parseDrop (l ++ (";").data) = some (Stmt.dropTbl (String.mk l))) := by
  by_cases hall : l.all identChar = true
  · by_cases hne : l.isEmpty = true
    · left
      have hl : l = [] := by
        cases l with
        | nil => rfl
        | cons c cs => simp [List.isEmpty] at hne
      subst hl
      decide
    · right
      have hne' : l.isEmpty = false := by
        cases h2 : l.isEmpty with
        | false => rfl
        | true => exact absurd h2 hne
      refine ⟨hne', hall, ?_⟩
      simp only [parseDrop]
      rw [identRun_append_semi l hall]
      simp [hne']
  · left
    have hall' : l.all identChar = false := by
      cases h2 : l.all identChar with
      | false => rfl
      | true => exact absurd h2 hall
    have hsnd := identRun_semi_snd_ne l hall'
    simp only [parseDrop]
    by_cases hfst : (identRun (l ++ (";").data)).1.isEmpty = true
    · simp [hfst]
    · simp [hfst, hsnd]

/-- Inversion of the engine front end on the statement text createTable
builds: for a backquote-free table name the parse recovers exactly the name
and the column-clause body. -/
theorem parseSql_createTableSql (name : String) (d : List (String × String))
    (h : backquote ∉ name.data) :
    parseSql (createTableSql name d) =
      some (Stmt.createTbl false name (joinWith ", " (columnClauses d))) := by
  have s1 : dropPre ("CREATE TABLE ").data (createTableSql name d).data =
      some (backquote :: (name.data ++ (backquote ::
        ((" (").data ++ ((joinWith ", " (columnClauses d)).data ++
          (") WITHOUT ROWID;").data))))) := by
    rw [createTableSql_data]; exact dropPre_append _ _
  rw [parseSql_eq_parseCreate _ _ s1, parseCreate_bq, parseCreateName_bq,
      parseCreateQuoted_split false name.data _ h, parseCreateBody_eq,
      parseCreateTail_eq, strMk_data, strMk_data]

/-- Reduction of the engine front end on the statement text dropTable
builds: the prefix is consumed, leaving the raw name and the semicolon to
the DROP TABLE name grammar. -/
theorem parseSql_dropTableSql_eq (name : String) :
    parseSql (dropTableSql name) = parseDrop (name.data ++ (";").data) := by
  have e1 : (dropTableSql name).data =
      ("DROP TABLE ").data ++ (name.data ++ (";").data) := by
    show ("DROP TABLE " ++ name ++ ";").data = _
    rw [strData_append, strData_append, List.append_assoc]
  have e0 : ("DROP TABLE " : String).data = 'D' :: ("ROP TABLE ").data := by decide
  have hc : dropPre ("CREATE TABLE ").data (dropTableSql name).data = none := by
    rw [e1, e0, List.cons_append]
    exact dropPre_createPat_d _
  have s1 : dropPre ("DROP TABLE ").data (dropTableSql name).data =
      some (name.data ++ (";").data) := by
    rw [e1]; exact dropPre_append _ _
  exact parseSql_eq_parseDrop _ _ hc s1

/-- Inversion of the engine front end on the statement text dropTable
builds, for a name the unquoted DROP TABLE grammar accepts: a nonempty
identifier run. -/
theorem parseSql_dropTableSql (name : String) (hne : name.data.isEmpty = false)
    (hall : name.data.all identChar = true) :
    parseSql (dropTableSql name) = some (Stmt.dropTbl name) := by
  rw [parseSql_dropTableSql_eq]
  simp only [parseDrop]
  rw [identRun_append_semi name.data hall]
  simp [hne, strMk_data]

theorem all_identChar_of_valid (s : String) (h : isValidIdentifier s = true) :
    s.data.isEmpty = false ∧ s.data.all identChar = true := by
  simp only [isValidIdentifier, Bool.and_eq_true, Bool.not_eq_true'] at h
  exact ⟨h.1, h.2⟩

theorem backquote_not_mem_of_valid (s : String) (h : isValidIdentifier s = true) :
    backquote ∉ s.data := by
  intro hm
  simp [isValidIdentifier, List.all_eq_true] at h
  have := h.2 backquote hm
  exact absurd this (by decide)

theorem prepareSql_create (tables : List String) (sql : String) (name body : String)
    (hp : parseSql sql = some (Stmt.createTbl false name body)) :
    prepareSql tables sql =
      if body.data.isEmpty then none
      else if !(containsSub ("PRIMARY KEY").data body.data) then none
      else if strMem name tables then none
      else some (Stmt.createTbl false name body) := by
  unfold prepareSql
  rw [hp]
  simp only [Bool.not_false, Bool.true_and]

theorem prepareSql_drop (tables : List String) (sql : String) (name : String)
    (hp : parseSql sql = some (Stmt.dropTbl name)) :
    prepareSql tables sql =
      if strMem name tables then some (Stmt.dropTbl name) else none := by
  unfold prepareSql
  rw [hp]

theorem executeQuery_none (sql : String) (db : DB)
    (h : prepareSql db.tables sql = none) :
    executeQuery sql db = (false, { db with submitted := sql :: db.submitted }) := by
  simp only [executeQuery, h]

theorem executeQuery_some (sql : String) (db : DB) (st : Stmt)
    (h : prepareSql db.tables sql = some st) :
    executeQuery sql db =
      (true, execStmt sql st { db with submitted := sql :: db.submitted }) := by
  simp only [executeQuery, h]

theorem execStmt_submitted (sql : String) (st : Stmt) (db : DB) :
    (execStmt sql st db).submitted = db.submitted := by
  cases st with
  | createTbl ifne nm body =>
    simp only [execStmt]
    split <;> rfl
  | dropTbl nm => rfl

theorem execStmt_executed (sql : String) (st : Stmt) (db : DB) :
    (execStmt sql st db).executed = sql :: db.executed := by
  cases st with
  | createTbl ifne nm body =>
    simp only [execStmt]
    split <;> rfl
  | dropTbl nm => rfl

theorem execStmt_log (sql : String) (st : Stmt) (db : DB) :
    (execStmt sql st db).log = db.log := by
  cases st with
  | createTbl ifne nm body =>
    simp only [execStmt]
    split <;> rfl
  | dropTbl nm => rfl

theorem executeQuery_submitted (sql : String) (db : DB) :
    (executeQuery sql db).2.submitted = sql :: db.submitted := by
  cases hq : prepareSql db.tables sql with
  | none => rw [executeQuery_none _ _ hq]
  | some st => rw [executeQuery_some _ _ _ hq, execStmt_submitted]

theorem createTable_eq (name : String) (d : List (String × String)) (db : DB) :
    createTable name d db =
      executeQuery (createTableSql name d)
        (addLog ("Creating table " ++ name ++ " : " ++ createTableSql name d) db) := rfl

theorem endsWithStr_append (suf x : String) : endsWithStr suf (x ++ suf) = true := by
  simp [endsWithStr, strData_append, dropSuf_append]

theorem cons_reassoc (a : List Char) (c : Char) (b : List Char) :
    a ++ (c :: b) = (a ++ [c]) ++ b := by simp

theorem registryInv_addLog (m : String) (db : DB) :
    RegistryInv (addLog m db) = RegistryInv db := rfl

theorem registryInv_executeQuery (sql : String) (db : DB)
    (h : RegistryInv db = true) : RegistryInv (executeQuery sql db).2 = true := by
  cases hq : prepareSql db.tables sql with
  | none =>
    rw [executeQuery_none _ _ hq]
    simpa [RegistryInv] using h
  | some st =>
    rw [executeQuery_some _ _ _ hq]
    cases st with
    | createTbl ifne nm body =>
      by_cases hm : (ifne && strMem nm db.tables) = true
      · simpa [execStmt, hm, RegistryInv] using h
      · simp [execStmt, hm, RegistryInv, allIn, strMem_head] at h ⊢
        exact ⟨allIn_cons_right _ _ _ h.1, allIn_cons_right _ _ _ h.2⟩
    | dropTbl nm =>
      simp [execStmt, RegistryInv] at h ⊢
      constructor
      · by_cases hv : nm = VERSION_TABLE_NAME
        · simp [hv, allIn]
        · simpa [hv] using h.1
      · exact allIn_removeAll nm _ _ h.2

theorem registryInv_dropTable (nm : String) (db : DB) (h : RegistryInv db = true) :
    RegistryInv (dropTable nm db).2 = true := by
  by_cases hp : isTablePresent nm db = true
  · have hr := registryInv_executeQuery (dropTableSql nm) db h
    by_cases h1 : (executeQuery (dropTableSql nm) db).1 = true <;>
      simpa [dropTable, hp, h1, registryInv_addLog] using hr
  · simpa [dropTable, hp] using h

theorem registryInv_setTableVersion (nm : String) (v : Int) (db : DB)
    (h : RegistryInv db = true) :
    RegistryInv (setTableVersion nm v db).2 = true := by
  by_cases h1 : isTablePresent VERSION_TABLE_NAME db = true
  · by_cases h2 : isTablePresent nm db = true
    · simp [setTableVersion, h1, h2, RegistryInv, allIn] at h ⊢
      exact ⟨⟨strMem_of_allIn db.tables db.ever nm h.2 h2,
        allIn_eraseRow_keys nm db.versions db.ever h.1⟩, h.2⟩
    · simpa [setTableVersion, h1, h2] using h
  · simpa [setTableVersion, h1] using h

theorem registryInv_getTableVersion (nm : String) (db : DB) (h : RegistryInv db = true) :
    RegistryInv (getTableVersion nm db).2 = true := by
  by_cases hr : isTablePresent VERSION_TABLE_NAME db = true
  · by_cases hn : isTablePresent nm db = true
    · cases hl : lookupVersion nm db.versions with
      | none => simpa [getTableVersion, hr, hn, hl, addLog, RegistryInv] using h
      | some v => simpa [getTableVersion, hr, hn, hl, addLog, RegistryInv] using h
    · simpa [getTableVersion, hr, hn] using h
  · simpa [getTableVersion, hr] using h

/-! Claim theorems. -/

/-- C1 counterexample: a negative version — outside the spec's non-negative
domain, hence an invalid row value in the claim's sense — stored through
setTableVersion itself is returned verbatim by getTableVersion, not mapped
to the -1 sentinel the fourth case of the state table requires
(QVariant::toUInt wraps instead of failing on integers). -/
theorem stored_negative_version_counterexample :
    (getTableVersion "C"
      (setTableVersion "C" (-2)
        (⟨["TablesVersions", "C"], [], [], [], [], []⟩ : DB)).2).1 = -2 ∧
    ¬(getTableVersion "C"
      (setTableVersion "C" (-2)
        (⟨["TablesVersions", "C"], [], [], [], [], []⟩ : DB)).2).1 = -1 := by
  decide

/-- C1 (amended): getTableVersion returns -1 when the registry table is
absent; 0 when the registry is present but the queried table is absent;
the stored integer verbatim — negative values included — when a row for the
name exists; and -1 only when the row is missing. -/
theorem getTableVersion_cases (name : String) (db : DB) :
    (isTablePresent VERSION_TABLE_NAME db = false → (getTableVersion name db).1 = -1) ∧
    (isTablePresent VERSION_TABLE_NAME db = true → isTablePresent name db = false →
      (getTableVersion name db).1 = 0) ∧
    (∀ v : Int, isTablePresent VERSION_TABLE_NAME db = true → isTablePresent name db = true →
      lookupVersion name db.versions = some v → (getTableVersion name db).1 = v) ∧
    (isTablePresent VERSION_TABLE_NAME db = true → isTablePresent name db = true →
      lookupVersion name db.versions = none → (getTableVersion name db).1 = -1) := by
  refine ⟨?_, ?_, ?_, ?_⟩
  · intro h; simp [getTableVersion, h]
  · intro h1 h2; simp [getTableVersion, h1, h2]
  · intro v h1 h2 h3; simp [getTableVersion, h1, h2, h3]
  · intro h1 h2 h3; simp [getTableVersion, h1, h2, h3]

/-- Witness for C1 (amended): the cases evaluated on concrete states,
including a stored negative value returned verbatim and a present table
with no registry row. -/
theorem getTableVersion_cases_witness :
    (getTableVersion "X" emptyDB).1 = -1 ∧
    (getTableVersion "B" (⟨["TablesVersions"], [], [], [], [], []⟩ : DB)).1 = 0 ∧
    (getTableVersion "A"
      (⟨["TablesVersions", "A", "C", "D"], [("A", 5), ("C", -2)], [], [], [], []⟩ : DB)).1
        = 5 ∧
    (getTableVersion "C"
      (⟨["TablesVersions", "A", "C", "D"], [("A", 5), ("C", -2)], [], [], [], []⟩ : DB)).1
        = -2 ∧
    (getTableVersion "D"
      (⟨["TablesVersions", "A", "C", "D"], [("A", 5), ("C", -2)], [], [], [], []⟩ : DB)).1
        = -1 :=
  ⟨(getTableVersion_cases "X" emptyDB).1 (by decide),
   (getTableVersion_cases "B" _).2.1 (by decide) (by decide),
   (getTableVersion_cases "A" _).2.2.1 5 (by decide) (by decide) (by decide),
   (getTableVersion_cases "C" _).2.2.1 (-2) (by decide) (by decide) (by decide),
   (getTableVersion_cases "D" _).2.2.2 (by decide) (by decide) (by decide)⟩

/-- C2: setTableVersion returns false without mutating the state when the
registry table is absent or the target table is absent; otherwise it returns
true, leaves the catalog unchanged, stores the (tableName, version) row
under the tableName key, and preserves every other row. -/
theorem setTableVersion_spec (name : String) (v : Int) (db : DB) :
    (isTablePresent VERSION_TABLE_NAME db = false → setTableVersion name v db = (false, db)) ∧
    (isTablePresent name db = false → setTableVersion name v db = (false, db)) ∧
    (isTablePresent VERSION_TABLE_NAME db = true → isTablePresent name db = true →
      (setTableVersion name v db).1 = true ∧
      (setTableVersion name v db).2.tables = db.tables ∧
      lookupVersion name (setTableVersion name v db).2.versions = some v ∧
      (∀ m, m ≠ name →
        lookupVersion m (setTableVersion name v db).2.versions = lookupVersion m db.versions)) := by
  refine ⟨?_, ?_, ?_⟩
  · intro h; simp [setTableVersion, h]
  · intro h
    by_cases h1 : isTablePresent VERSION_TABLE_NAME db = true <;> simp [setTableVersion, h, h1]
  · intro h1 h2
    refine ⟨by simp [setTableVersion, h1, h2], by simp [setTableVersion, h1, h2], ?_, ?_⟩
    · simp [setTableVersion, h1, h2, lookupVersion]
    · intro m hm
      have hnm : ¬(name = m) := fun he => hm he.symm
      simp [setTableVersion, h1, h2, lookupVersion, hnm,
            lookupVersion_eraseRow_ne m name db.versions hm]

/-- Witness for C2: failure cases and a replace on a concrete state. -/
theorem setTableVersion_spec_witness :
    setTableVersion "A" 7 emptyDB = (false, emptyDB) ∧
    (setTableVersion "A" 7
      (⟨["TablesVersions", "A"], [("A", 1), ("B", 2)], [], [], [], []⟩ : DB)).1 = true ∧
    lookupVersion "A"
      (setTableVersion "A" 7
        (⟨["TablesVersions", "A"], [("A", 1), ("B", 2)], [], [], [], []⟩ : DB)).2.versions
      = some 7 ∧
    lookupVersion "B"
      (setTableVersion "A" 7
        (⟨["TablesVersions", "A"], [("A", 1), ("B", 2)], [], [], [], []⟩ : DB)).2.versions
      = some 2 :=
  ⟨(setTableVersion_spec "A" 7 emptyDB).1 (by decide),
   ((setTableVersion_spec "A" 7 _).2.2 (by decide) (by decide)).1,
   ((setTableVersion_spec "A" 7 _).2.2 (by decide) (by decide)).2.2.1,
   (((setTableVersion_spec "A" 7 _).2.2 (by decide) (by decide)).2.2.2 "B" (by decide)).trans
     (by decide)⟩

/-- C7: round-trip of the registry: after a successful createTable of T and a
successful setTableVersion of (T, v) with the registry table present and v in
the version domain (non-negative, per spec §3), getTableVersion returns v. -/
theorem version_roundtrip (T : String) (d : List (String × String)) (v : Int)
    (db0 db1 db2 : DB)
    (_h1 : createTable T d db0 = (true, db1))
    (h2 : isTablePresent VERSION_TABLE_NAME db1 = true)
    (h3 : setTableVersion T v db1 = (true, db2))
    (hv : 0 ≤ v) :
    (getTableVersion T db2).1 = v := by
  by_cases hT : isTablePresent T db1 = true
  · have hdb2 : db2 = { db1 with versions := (T, v) :: eraseRow T db1.versions,
                                 executed := setVersionSql :: db1.executed } := by
      simp [setTableVersion, h2, hT] at h3
      exact h3.symm
    have hr2 : isTablePresent VERSION_TABLE_NAME db2 = true := by rw [hdb2]; exact h2
    have hT2 : isTablePresent T db2 = true := by rw [hdb2]; exact hT
    have hl : lookupVersion T db2.versions = some v := by
      rw [hdb2]; exact lookupVersion_cons_self T v (eraseRow T db1.versions)
    simp [getTableVersion, hr2, hT2, hl, hv]
  · exfalso
    by_cases hr : isTablePresent VERSION_TABLE_NAME db1 = true
    · simp [setTableVersion, hr, hT] at h3
    · simp [setTableVersion, hr] at h3

/-- Witness for C7: the spec's round-trip scenario on a fresh registry. -/
theorem version_roundtrip_witness :
    (getTableVersion "UserData"
      (setTableVersion "UserData" 3
        (createTable "UserData" [("id", "INTEGER PRIMARY KEY")]
          (⟨["TablesVersions"], [], [], [], [], ["TablesVersions"]⟩ : DB)).2).2).1 = 3 :=
  version_roundtrip "UserData" [("id", "INTEGER PRIMARY KEY")] 3
    (⟨["TablesVersions"], [], [], [], [], ["TablesVersions"]⟩ : DB)
    (createTable "UserData" [("id", "INTEGER PRIMARY KEY")]
      (⟨["TablesVersions"], [], [], [], [], ["TablesVersions"]⟩ : DB)).2
    (setTableVersion "UserData" 3
      (createTable "UserData" [("id", "INTEGER PRIMARY KEY")]
        (⟨["TablesVersions"], [], [], [], [], ["TablesVersions"]⟩ : DB)).2).2
    (by decide) (by decide) (by decide) (by decide)

/-- C10: isTablePresent and getTableVersion are read-only on the modelled
state: the catalog and the registry rows are unchanged by a call, whatever
the result is, and the presence check is unaffected by a preceding lookup. -/
theorem reads_preserve_state (name : String) (db : DB) :
    (getTableVersion name db).2.tables = db.tables ∧
    (getTableVersion name db).2.versions = db.versions ∧
    isTablePresent name (getTableVersion name db).2 = isTablePresent name db := by
  have key : (getTableVersion name db).2.tables = db.tables ∧
      (getTableVersion name db).2.versions = db.versions := by
    by_cases hr : isTablePresent VERSION_TABLE_NAME db = true
    · by_cases hn : isTablePresent name db = true
      · cases hl : lookupVersion name db.versions with
        | none => simp [getTableVersion, hr, hn, hl, addLog]
        | some v => simp [getTableVersion, hr, hn, hl, addLog]
      · simp [getTableVersion, hr, hn]
    · simp [getTableVersion, hr]
  exact ⟨key.1, key.2, by simp [isTablePresent, key.1]⟩

/-- C3 counterexample: "a b" fails the identifier allow-list, yet createTable
executes a statement embedding it verbatim — no validation takes place. -/
theorem identifier_validation_counterexample :
    isValidIdentifier "a b" = false ∧
    (createTable "a b" [("id", "INTEGER PRIMARY KEY")] emptyDB).1 = true ∧
    (createTable "a b" [("id", "INTEGER PRIMARY KEY")] emptyDB).2.executed =
      [createTableSql "a b" [("id", "INTEGER PRIMARY KEY")]] ∧
    containsSub ("a b").data
      (createTableSql "a b" [("id", "INTEGER PRIMARY KEY")]).data = true := by
  decide

/-- C3 (amended): no identifier validation is performed: createTable and
dropTable always hand the query executor a statement with the raw
caller-supplied name interpolated into its text. -/
theorem names_interpolated_unvalidated (name : String) (d : List (String × String)) (db : DB) :
    (createTable name d db).2.submitted = createTableSql name d :: db.submitted ∧
    containsSub name.data (createTableSql name d).data = true ∧
    (isTablePresent name db = true →
      (dropTable name db).2.submitted = dropTableSql name :: db.submitted ∧
      containsSub name.data (dropTableSql name).data = true) := by
  refine ⟨?_, ?_, ?_⟩
  · rw [createTable_eq, executeQuery_submitted]; rfl
  · rw [createTableSql_data, cons_reassoc]
    exact containsSub_middle _ _ _
  · intro h
    constructor
    · by_cases h1 : (executeQuery (dropTableSql name) db).1 = true <;>
        simp [dropTable, h, h1, addLog, executeQuery_submitted]
    · have e1 : (dropTableSql name).data =
          ("DROP TABLE ").data ++ (name.data ++ (";").data) := by
        show ("DROP TABLE " ++ name ++ ";").data = _
        rw [strData_append, strData_append, List.append_assoc]
      rw [e1]
      exact containsSub_middle _ _ _

/-- Witness for C3 (amended): the raw-interpolation facts at a concrete
invalid name, in both the createTable and dropTable directions. -/
theorem names_interpolated_unvalidated_witness :
    (createTable "a;x" [] emptyDB).2.submitted = [createTableSql "a;x" []] ∧
    (dropTable "a;x" (⟨["a;x"], [], [], [], [], []⟩ : DB)).2.submitted =
      [dropTableSql "a;x"] ∧
    containsSub ("a;x").data (dropTableSql "a;x").data = true :=
  ⟨(names_interpolated_unvalidated "a;x" [] emptyDB).1,
   ((names_interpolated_unvalidated "a;x" [] (⟨["a;x"], [], [], [], [], []⟩ : DB)).2.2
     (by decide)).1,
   ((names_interpolated_unvalidated "a;x" [] (⟨["a;x"], [], [], [], [], []⟩ : DB)).2.2
     (by decide)).2⟩

/-- C4 counterexample: a definition with no primary key still yields a
statement ending in WITHOUT ROWID — the convention is not applied "only
when the definition designates a primary key". -/
theorem without_rowid_counterexample :
    endsWithStr ") WITHOUT ROWID;" (createTableSql "UserData" [("id", "INTEGER")]) = true ∧
    containsSub ("PRIMARY KEY").data
      (joinWith ", " (columnClauses [("id", "INTEGER")])).data = false := by
  decide

/-- C4 (amended): createTable builds the statement from the ordered column
list and appends WITHOUT ROWID unconditionally; as a consequence, when the
definition designates no primary key the statement fails to prepare, so
createTable returns false and creates nothing. -/
theorem createTable_always_without_rowid (name : String) (d : List (String × String)) (db : DB) :
    endsWithStr ") WITHOUT ROWID;" (createTableSql name d) = true ∧
    (backquote ∉ name.data →
      containsSub ("PRIMARY KEY").data (joinWith ", " (columnClauses d)).data = false →
      (createTable name d db).1 = false ∧
      (createTable name d db).2.tables = db.tables ∧
      (createTable name d db).2.executed = db.executed) := by
  constructor
  · exact endsWithStr_append ") WITHOUT ROWID;"
      ("CREATE TABLE `" ++ name ++ "` (" ++ joinWith ", " (columnClauses d))
  · intro hbq hPK
    have hp := parseSql_createTableSql name d hbq
    have hprep := prepareSql_create db.tables (createTableSql name d) name
      (joinWith ", " (columnClauses d)) hp
    have hq : prepareSql db.tables (createTableSql name d) = none := by
      rw [hprep]
      cases hE : (joinWith ", " (columnClauses d)).data.isEmpty <;> simp [hE, hPK]
    have hr := executeQuery_none (createTableSql name d)
      (addLog ("Creating table " ++ name ++ " : " ++ createTableSql name d) db) hq
    refine ⟨?_, ?_, ?_⟩ <;> rw [createTable_eq, hr] <;> simp [addLog]

/-- Witness for C4 (amended): a PK-free definition fails and creates no
table. -/
theorem createTable_always_without_rowid_witness :
    (createTable "UserData" [("id", "INTEGER")] emptyDB).1 = false ∧
    (createTable "UserData" [("id", "INTEGER")] emptyDB).2.tables = [] :=
  ⟨((createTable_always_without_rowid "UserData" [("id", "INTEGER")] emptyDB).2
      (by decide) (by decide)).1,
   ((createTable_always_without_rowid "UserData" [("id", "INTEGER")] emptyDB).2
      (by decide) (by decide)).2.1⟩

/-- C5: for an identifier-valid name, a successful createTable makes the
table present immediately afterward; createTable performs no pre-existence
check of its own (the statement is always submitted) and returns false when
the table already exists. -/
theorem createTable_isTablePresent (name : String) (d : List (String × String)) (db : DB)
    (hv : isValidIdentifier name = true) :
    ((createTable name d db).1 = true → isTablePresent name (createTable name d db).2 = true) ∧
    (isTablePresent name db = true → (createTable name d db).1 = false) ∧
    (createTable name d db).2.submitted = createTableSql name d :: db.submitted := by
  have hbq : backquote ∉ name.data := backquote_not_mem_of_valid name hv
  have hp := parseSql_createTableSql name d hbq
  have hprep := prepareSql_create db.tables (createTableSql name d) name
    (joinWith ", " (columnClauses d)) hp
  by_cases hE : (joinWith ", " (columnClauses d)).data.isEmpty = true
  · have hq : prepareSql db.tables (createTableSql name d) = none := by
      rw [hprep]; simp [hE]
    have hr := executeQuery_none (createTableSql name d)
      (addLog ("Creating table " ++ name ++ " : " ++ createTableSql name d) db) hq
    refine ⟨?_, ?_, ?_⟩ <;> rw [createTable_eq, hr] <;> simp [addLog]
  · by_cases hPK : containsSub ("PRIMARY KEY").data
        (joinWith ", " (columnClauses d)).data = true
    · by_cases hMem : strMem name db.tables = true
      · have hq : prepareSql db.tables (createTableSql name d) = none := by
          rw [hprep]; simp [hE, hPK, hMem]
        have hr := executeQuery_none (createTableSql name d)
          (addLog ("Creating table " ++ name ++ " : " ++ createTableSql name d) db) hq
        refine ⟨?_, ?_, ?_⟩ <;> rw [createTable_eq, hr] <;> simp [addLog]
      · have hq : prepareSql db.tables (createTableSql name d) =
            some (Stmt.createTbl false name (joinWith ", " (columnClauses d))) := by
          rw [hprep]; simp [hE, hPK, hMem]
        have hr := executeQuery_some (createTableSql name d)
          (addLog ("Creating table " ++ name ++ " : " ++ createTableSql name d) db) _ hq
        refine ⟨?_, ?_, ?_⟩ <;> rw [createTable_eq, hr]
        · intro _
          simp [execStmt, isTablePresent, addLog, strMem_head]
        · intro hmem
          exact absurd hmem hMem
        · simp [execStmt, addLog]
    · have hq : prepareSql db.tables (createTableSql name d) = none := by
        rw [hprep]; simp [hE, hPK]
      have hr := executeQuery_none (createTableSql name d)
        (addLog ("Creating table " ++ name ++ " : " ++ createTableSql name d) db) hq
      refine ⟨?_, ?_, ?_⟩ <;> rw [createTable_eq, hr] <;> simp [addLog]

/-- Witness for C5: a fresh create makes the table present; a create of an
existing table fails. -/
theorem createTable_isTablePresent_witness :
    isTablePresent "UserData"
      (createTable "UserData" [("id", "INTEGER PRIMARY KEY")] emptyDB).2 = true ∧
    (createTable "TablesVersions" [("id", "INTEGER PRIMARY KEY")]
      (⟨["TablesVersions"], [], [], [], [], []⟩ : DB)).1 = false :=
  ⟨(createTable_isTablePresent "UserData" [("id", "INTEGER PRIMARY KEY")] emptyDB
      (by decide)).1 (by decide),
   (createTable_isTablePresent "TablesVersions" [("id", "INTEGER PRIMARY KEY")]
      (⟨["TablesVersions"], [], [], [], [], []⟩ : DB) (by decide)).2.1 (by decide)⟩

/-- C6 counterexample: a table named "a b" is reachable (createTable quotes
the name, so creation succeeds — see utils.cpp line 187) but dropTable emits
DROP TABLE unquoted (line 199), so preparation fails: dropTable returns
false, executes nothing, and the table remains present — contradicting the
claim that every present table is dropped with result true. -/
theorem dropTable_nonident_counterexample :
    (createTable "a b" [("id", "INTEGER PRIMARY KEY")] emptyDB).1 = true ∧
    isTablePresent "a b"
      (createTable "a b" [("id", "INTEGER PRIMARY KEY")] emptyDB).2 = true ∧
    (dropTable "a b" (createTable "a b" [("id", "INTEGER PRIMARY KEY")] emptyDB).2).1
      = false ∧
    isTablePresent "a b"
      (dropTable "a b" (createTable "a b" [("id", "INTEGER PRIMARY KEY")] emptyDB).2).2
      = true ∧
    (dropTable "a b" (createTable "a b" [("id", "INTEGER PRIMARY KEY")] emptyDB).2).2.executed
      = (createTable "a b" [("id", "INTEGER PRIMARY KEY")] emptyDB).2.executed := by
  decide

/-- C6 (amended): dropTable on an absent table returns true without touching
the state or executing anything.  On a present table whose name is a valid
identifier it executes DROP TABLE, returns true, the table is absent
afterward, and a second drop again returns true.  On a present table whose
name the unquoted DROP TABLE statement cannot parse, preparation fails:
dropTable returns false, executes nothing, and the table survives. -/
theorem dropTable_idempotent (name : String) (db : DB) :
    (isTablePresent name db = false → dropTable name db = (true, db)) ∧
    (isValidIdentifier name = true → isTablePresent name db = true →
      (dropTable name db).1 = true ∧
      isTablePresent name (dropTable name db).2 = false ∧
      (dropTable name db).2.executed = dropTableSql name :: db.executed ∧
      (dropTable name (dropTable name db).2).1 = true) ∧
    (isTablePresent name db = true → (dropTable name db).1 = false →
      isTablePresent name (dropTable name db).2 = true ∧
      (dropTable name db).2.executed = db.executed) := by
  refine ⟨?_, ?_, ?_⟩
  · intro h; simp [dropTable, h]
  · intro hvalid h
    have hid := all_identChar_of_valid name hvalid
    have hq : prepareSql db.tables (dropTableSql name) = some (Stmt.dropTbl name) := by
      rw [prepareSql_drop db.tables _ name (parseSql_dropTableSql name hid.1 hid.2)]
      simp [show strMem name db.tables = true from h]
    have hr := executeQuery_some (dropTableSql name) db _ hq
    have hd : dropTable name db = (true, execStmt (dropTableSql name) (Stmt.dropTbl name)
        { db with submitted := dropTableSql name :: db.submitted }) := by
      simp [dropTable, h, hr]
    have habs : isTablePresent name (execStmt (dropTableSql name) (Stmt.dropTbl name)
        { db with submitted := dropTableSql name :: db.submitted }) = false := by
      simp [execStmt, isTablePresent, strMem_removeAll_self]
    refine ⟨by rw [hd], by rw [hd]; exact habs, by rw [hd, execStmt_executed], ?_⟩
    rw [hd]
    simp [dropTable, habs]
  · intro h hfalse
    cases hq : prepareSql db.tables (dropTableSql name) with
    | some st =>
      exfalso
      have hr := executeQuery_some (dropTableSql name) db st hq
      simp [dropTable, h, hr] at hfalse
    | none =>
      have hr := executeQuery_none (dropTableSql name) db hq
      have h' : strMem name db.tables = true := h
      constructor
      · simp [dropTable, hr, addLog, isTablePresent, h']
      · simp [dropTable, hr, addLog, isTablePresent, h']

/-- Witness for C6 (amended): concrete absent, valid-present and
unparsable-present drops. -/
theorem dropTable_idempotent_witness :
    dropTable "Missing" emptyDB = (true, emptyDB) ∧
    (dropTable "UserData" (⟨["UserData"], [], [], [], [], []⟩ : DB)).1 = true ∧
    isTablePresent "UserData"
      (dropTable "UserData" (⟨["UserData"], [], [], [], [], []⟩ : DB)).2 = false ∧
    (dropTable "UserData"
      (dropTable "UserData" (⟨["UserData"], [], [], [], [], []⟩ : DB)).2).1 = true ∧
    isTablePresent "a b" (dropTable "a b" (⟨["a b"], [], [], [], [], []⟩ : DB)).2 = true :=
  ⟨(dropTable_idempotent "Missing" emptyDB).1 (by decide),
   ((dropTable_idempotent "UserData" (⟨["UserData"], [], [], [], [], []⟩ : DB)).2.1
     (by decide) (by decide)).1,
   ((dropTable_idempotent "UserData" (⟨["UserData"], [], [], [], [], []⟩ : DB)).2.1
     (by decide) (by decide)).2.1,
   ((dropTable_idempotent "UserData" (⟨["UserData"], [], [], [], [], []⟩ : DB)).2.1
     (by decide) (by decide)).2.2.2,
   ((dropTable_idempotent "a b" (⟨["a b"], [], [], [], [], []⟩ : DB)).2.2
     (by decide) (by decide)).1⟩

/-- C8 counterexample: a failing statement yields false with NO diagnostic
log line — executeQuery itself never logs, contradicting the claim that
every failure is additionally reported via a diagnostic log line. -/
theorem executeQuery_no_log_counterexample :
    (executeQuery "BOGUS" emptyDB).1 = false ∧
    (executeQuery "BOGUS" emptyDB).2.log = [] ∧
    (executeQuery "BOGUS" emptyDB).2.executed = [] := by
  decide

/-- C8 (amended): executeQuery returns false without executing when
preparation fails, returns true (recording the execution) when preparation
succeeds, and never emits a diagnostic log line of its own; failures are
reported only through the boolean result. -/
theorem executeQuery_spec (sql : String) (db : DB) :
    (prepareSql db.tables sql = none →
      executeQuery sql db = (false, { db with submitted := sql :: db.submitted })) ∧
    (∀ st, prepareSql db.tables sql = some st →
      (executeQuery sql db).1 = true ∧
      (executeQuery sql db).2.executed = sql :: db.executed) ∧
    (executeQuery sql db).2.log = db.log := by
  refine ⟨fun h => executeQuery_none sql db h, fun st h => ?_, ?_⟩
  · rw [executeQuery_some sql db st h]
    exact ⟨rfl, by rw [execStmt_executed]⟩
  · cases hq : prepareSql db.tables sql with
    | none => rw [executeQuery_none sql db hq]
    | some st => rw [executeQuery_some sql db st hq, execStmt_log]

/-- Witness for C8 (amended): a preparation failure and a successful
execution at concrete inputs. -/
theorem executeQuery_spec_witness :
    executeQuery "BOGUS" emptyDB = (false, { emptyDB with submitted := ["BOGUS"] }) ∧
    (executeQuery ensureVersionTableSql emptyDB).1 = true :=
  ⟨(executeQuery_spec "BOGUS" emptyDB).1 (by decide),
   ((executeQuery_spec ensureVersionTableSql emptyDB).2.1
     (Stmt.createTbl true "TablesVersions" "tableName TEXT PRIMARY KEY, version INTEGER")
     (by decide)).1⟩

/-- C9: the registry invariant — every registry row names a table that
exists or once existed — is preserved by every operation of this core;
moreover dropTable of a non-registry table deletes no registry rows, and
setTableVersion only succeeds when the target table is present. -/
theorem registry_rows_track_tables (op : Op) (db : DB) (n : String) (v : Int) :
    (RegistryInv db = true → RegistryInv (applyOp op db) = true) ∧
    (n ≠ VERSION_TABLE_NAME → (dropTable n db).2.versions = db.versions) ∧
    ((setTableVersion n v db).1 = true → isTablePresent n db = true) := by
  refine ⟨?_, ?_, ?_⟩
  · intro h
    cases op with
    | createT nm d => exact registryInv_executeQuery _ _ h
    | dropT nm => exact registryInv_dropTable nm db h
    | setV nm v2 => exact registryInv_setTableVersion nm v2 db h
    | getV nm => exact registryInv_getTableVersion nm db h
    | runSql s => exact registryInv_executeQuery s db h
    | ensureV => exact registryInv_executeQuery ensureVersionTableSql db h
  · intro hn
    by_cases hp : isTablePresent n db = true
    · rcases parseDrop_cases n.data with hno | ⟨_, _, hsome⟩
      · have hq : prepareSql db.tables (dropTableSql n) = none := by
          unfold prepareSql
          rw [parseSql_dropTableSql_eq, hno]
        have hr := executeQuery_none (dropTableSql n) db hq
        simp [dropTable, hp, hr, addLog]
      · have hps : parseSql (dropTableSql n) = some (Stmt.dropTbl n) := by
          rw [parseSql_dropTableSql_eq, hsome, strMk_data]
        have hq : prepareSql db.tables (dropTableSql n) = some (Stmt.dropTbl n) := by
          rw [prepareSql_drop db.tables _ n hps]
          simp [show strMem n db.tables = true from hp]
        have hr := executeQuery_some (dropTableSql n) db _ hq
        by_cases h1 : (executeQuery (dropTableSql n) db).1 = true <;>
          simp [dropTable, hp, h1, hr, execStmt, addLog, hn]
    · simp [dropTable, hp]
  · intro hs
    by_cases h1 : isTablePresent VERSION_TABLE_NAME db = true
    · by_cases h2 : isTablePresent n db = true
      · exact h2
      · simp [setTableVersion, h1, h2] at hs
    · simp [setTableVersion, h1] at hs

/-- Witness for C9: invariant preservation, row preservation and the
write-guard at concrete inputs. -/
theorem registry_rows_track_tables_witness :
    RegistryInv (applyOp (Op.setV "A" 2)
      (⟨["TablesVersions", "A"], [], [], [], [], ["TablesVersions", "A"]⟩ : DB)) = true ∧
    (dropTable "A"
      (⟨["TablesVersions", "A"], [("A", 1)], [], [], [], []⟩ : DB)).2.versions = [("A", 1)] ∧
    isTablePresent "A" (⟨["TablesVersions", "A"], [("A", 1)], [], [], [], []⟩ : DB) = true :=
  ⟨(registry_rows_track_tables (Op.setV "A" 2)
      (⟨["TablesVersions", "A"], [], [], [], [], ["TablesVersions", "A"]⟩ : DB) "X" 0).1
      (by decide),
   (registry_rows_track_tables Op.ensureV
      (⟨["TablesVersions", "A"], [("A", 1)], [], [], [], []⟩ : DB) "A" 0).2.1 (by decide),
   (registry_rows_track_tables Op.ensureV
      (⟨["TablesVersions", "A"], [("A", 1)], [], [], [], []⟩ : DB) "A" 5).2.2 (by decide)⟩

end BSM
